import Mathlib

/-!
Verification of the OneTrainer SDXL training-step orchestration layer
(`modules/modelSetup/BaseStableDiffusionXLSetup.py`) and the LPIPS model
loader (`modules/modelLoader/util/LpipsModelLoader.py`).

The embedding is shallow: tensors become functions `Fin b → Fin c → Fin h →
Fin w → ℚ`, dict lookups that can raise `KeyError` become `Option` fields
inspected through `Except`, and calls into the external ML framework (the
denoising network, the noise scheduler's `add_noise` / `get_velocity`, the
text encoders, `torch.utils.checkpoint`, the Gaussian sampler behind
`torch.randn` / `torch.randint`, `loss_util.masked_loss` which lives outside
the two source files) are uninterpreted function parameters or fields.
Floating point is modelled by exact rationals; external irrational
operations (`** 0.5`) are opaque function fields.
-/

namespace OneTrainer

/-! ## Tensors and elementwise framework primitives -/

/-- A 4-dimensional tensor of shape `(b, c, h, w)` with rational entries. -/
abbrev Tensor4 (b c h w : ℕ) : Type := Fin b → Fin c → Fin h → Fin w → ℚ

/-- `t.mean([1, 2, 3])`: reduce the channel and the two spatial dimensions to
their mean, leaving a per-sample vector indexed by the batch dimension. -/
def mean123 {b c h w : ℕ} (t : Tensor4 b c h w) : Fin b → ℚ :=
  fun i => (∑ j : Fin c, ∑ k : Fin h, ∑ l : Fin w, t i j k l) / ((c : ℚ) * h * w)

/-- `t.mean()` on a 1-dimensional tensor: the mean over the batch dimension. -/
def meanAll1 {b : ℕ} (t : Fin b → ℚ) : ℚ :=
  (∑ i : Fin b, t i) / b

/-- `F.mse_loss(p, t, reduction="none")`: the elementwise squared error. -/
def mse_loss_none {b c h w : ℕ} (p t : Tensor4 b c h w) : Tensor4 b c h w :=
  fun i j k l => (p i j k l - t i j k l) ^ 2

/-- `torch.clamp` on a scalar: clip into the interval `[lo, hi]`. -/
def clampQ (x lo hi : ℚ) : ℚ := min (max x lo) hi

/-- `torch.clamp` applied elementwise to a 4-dimensional tensor. -/
def clampT {b c h w : ℕ} (t : Tensor4 b c h w) (lo hi : ℚ) : Tensor4 b c h w :=
  fun i j k l => clampQ (t i j k l) lo hi

/-- A constant tensor, used to build concrete witnesses. -/
def t4const (b c h w : ℕ) (q : ℚ) : Tensor4 b c h w := fun _ _ _ _ => q

/-! ## Python-level errors -/

/-- The uncaught Python exceptions the embedded code can raise. -/
inductive PyError where
  | keyError (key : String)
  | indexError
  | runtimeError (msg : String)
  deriving DecidableEq, Repr

/-! ## Configuration (`TrainArgs`) and the attention mechanism enum -/

/-- `modules.util.enum.AttentionMechanism`. -/
inductive AttentionMechanism where
  | DEFAULT
  | XFORMERS
  | SDP
  deriving DecidableEq, Repr

/-- The fields of `TrainArgs` consumed by the two source files.
`model_type_has_conditioning_image_input` embeds the call
`args.model_type.has_conditioning_image_input()`. -/
structure TrainArgs where
  attention_mechanism : AttentionMechanism
  train_text_encoder : Bool
  offset_noise_weight : ℚ
  max_noising_strength : ℚ
  masked_training : Bool
  unmasked_weight : ℚ
  normalize_masked_area_loss : Bool
  debug_mode : Bool
  debug_dir : String
  model_type_has_conditioning_image_input : Bool

/-! ## Batches and predict output -/

/-- The dict `batch`, with one `Option` field per key the source reads;
`none` means the key is absent and a lookup raises `KeyError`.
`Emb` is the type of text-token and text-embedding tensors, which the
claims never inspect. -/
structure Batch (b c h w : ℕ) (Emb : Type) where
  latent_image : Option (Tensor4 b c h w)
  latent_mask : Option (Tensor4 b c h w)
  tokens_1 : Option Emb
  tokens_2 : Option Emb
  text_encoder_1_hidden_state : Option (List Emb)
  text_encoder_2_hidden_state : Option (List Emb)
  text_encoder_2_pooled_state : Option Emb

/-- The dict `model_output_data` returned by `predict`: possibly empty
(`prediction_type` unrecognized), otherwise holding both entries. -/
structure ModelOutputData (b c h w : ℕ) where
  predicted : Option (Tensor4 b c h w)
  target : Option (Tensor4 b c h w)

/-! ## calculate_loss -/

/-- The type of `loss_util.masked_loss` (defined in `modules/util/loss_util.py`,
outside the two source files, hence an uninterpreted parameter): it receives
the elementwise loss function, predicted, target, the latent mask, the
unmasked weight and the normalize flag, and returns an elementwise tensor. -/
def MaskedLossFn (b c h w : ℕ) : Type :=
  (Tensor4 b c h w → Tensor4 b c h w → Tensor4 b c h w) →
    Tensor4 b c h w → Tensor4 b c h w → Tensor4 b c h w → ℚ → Bool → Tensor4 b c h w

/-- `BaseStableDiffusionXLSetup.calculate_loss`, lines 243-275 of the source.
Dict lookups are matches on the `Option` fields; a missing key raises
`KeyError` as in Python. -/
def calculate_loss {b c h w : ℕ} {Emb : Type} (masked_loss : MaskedLossFn b c h w)
    (batch : Batch b c h w Emb) (data : ModelOutputData b c h w) (args : TrainArgs) :
    Except PyError ℚ :=
  match data.predicted with
  | none => .error (.keyError "predicted")
  | some predicted =>
  match data.target with
  | none => .error (.keyError "target")
  | some target =>
  if args.masked_training && !args.model_type_has_conditioning_image_input then
    match batch.latent_mask with
    | none => .error (.keyError "latent_mask")
    | some latent_mask =>
      let losses := mean123 (masked_loss mse_loss_none predicted target latent_mask
        args.unmasked_weight args.normalize_masked_area_loss)
      .ok (meanAll1 losses)
  else
    let losses := mean123 (mse_loss_none predicted target)
    if args.normalize_masked_area_loss then
      match batch.latent_mask with
      | none => .error (.keyError "latent_mask")
      | some latent_mask =>
        let clamped_mask := clampT latent_mask args.unmasked_weight 1
        let losses2 := fun i => losses i / mean123 clamped_mask i
        .ok (meanAll1 losses2)
    else
      .ok (meanAll1 losses)

/-- Spec-side formula for claim C1, written from the claim's words rather
than the source: the scalar mean over the batch of per-sample losses, each
per-sample loss being the mean-squared error between predicted and target
reduced over the channel and spatial dimensions. -/
def spec_batch_mean_mse {b c h w : ℕ} (p t : Tensor4 b c h w) : ℚ :=
  (∑ i : Fin b,
    (∑ j : Fin c, ∑ k : Fin h, ∑ l : Fin w, (p i j k l - t i j k l) ^ 2) /
      ((c : ℚ) * h * w)) / b

/-! ## The LPIPS model loader -/

/-- The state of an `lpips.LPIPS` torch module that the loader manipulates:
network choice, `training` flag (`eval()` clears it), device, and the
`requires_grad` flag of every parameter. -/
structure LPIPSModel where
  net : String
  training : Bool
  device : String
  param_requires_grad : List Bool

/-- `lpips.LPIPS(net=net)`: a freshly constructed torch module is in training
mode, lives on the CPU, and all of its `n_params` parameters require grad. -/
def lpips_LPIPS (net : String) (n_params : ℕ) : LPIPSModel :=
  { net := net, training := true, device := "cpu",
    param_requires_grad := List.replicate n_params true }

/-- `Module.eval()`: clears the training flag. -/
def LPIPSModel.eval (m : LPIPSModel) : LPIPSModel := { m with training := false }

/-- `Module.to(device)`: moves the module to the device. -/
def LPIPSModel.to (m : LPIPSModel) (device : String) : LPIPSModel :=
  { m with device := device }

/-- `Module.requires_grad_(flag)`: sets `requires_grad` on all parameters. -/
def LPIPSModel.requires_grad_set (m : LPIPSModel) (flag : Bool) : LPIPSModel :=
  { m with param_requires_grad := m.param_requires_grad.map (fun _ => flag) }

/-- `modules/modelLoader/util/LpipsModelLoader.py`: the loader's two
constructor-stored fields. -/
structure LpipsModelLoader where
  device : String
  net : String

/-- `LpipsModelLoader.__init__` with the `net` argument omitted: the declared
default is `"vgg"`. -/
def LpipsModelLoader.mkDefault (device : String) : LpipsModelLoader :=
  { device := device, net := "vgg" }

/-- `LpipsModelLoader.load`, lines 9-12 of the source:
`lpips.LPIPS(net=self.net).eval().to(self.device)` then
`model.requires_grad_(False)`. -/
def LpipsModelLoader.load (self : LpipsModelLoader) (n_params : ℕ) : LPIPSModel :=
  (((lpips_LPIPS self.net n_params).eval).to self.device).requires_grad_set false

/-! ## Concrete fixtures used by counterexamples and witnesses -/

/-- A concrete instantiation of `loss_util.masked_loss` that simply applies
the elementwise loss function; only used in branches where `masked_loss` is
irrelevant or as an arbitrary concrete value. -/
def mloss0 : MaskedLossFn 1 1 1 1 := fun loss_fn p t _ _ _ => loss_fn p t

/-- Concrete predicted tensor for the `calculate_loss` fixtures. -/
def pC1 : Tensor4 1 1 1 1 := t4const 1 1 1 1 2

/-- Concrete target tensor for the `calculate_loss` fixtures. -/
def tC1 : Tensor4 1 1 1 1 := t4const 1 1 1 1 0

/-- Concrete predict-output dict holding `pC1` and `tC1`. -/
def dataC1 : ModelOutputData 1 1 1 1 := ⟨some pC1, some tC1⟩

/-- A batch whose `latent_mask` is the constant `1/2`. -/
def batchC1 : Batch 1 1 1 1 Unit :=
  { latent_image := none, latent_mask := some (t4const 1 1 1 1 (1 / 2)),
    tokens_1 := none, tokens_2 := none,
    text_encoder_1_hidden_state := none, text_encoder_2_hidden_state := none,
    text_encoder_2_pooled_state := none }

/-- A batch lacking the `latent_mask` key entirely. -/
def batchC7 : Batch 1 1 1 1 Unit :=
  { latent_image := none, latent_mask := none,
    tokens_1 := none, tokens_2 := none,
    text_encoder_1_hidden_state := none, text_encoder_2_hidden_state := none,
    text_encoder_2_pooled_state := none }

/-- Arguments with masked training off but mask-area normalization on. -/
def argsC1 : TrainArgs :=
  { attention_mechanism := .DEFAULT, train_text_encoder := false,
    offset_noise_weight := 0, max_noising_strength := 1,
    masked_training := false, unmasked_weight := 1 / 2,
    normalize_masked_area_loss := true, debug_mode := false, debug_dir := "",
    model_type_has_conditioning_image_input := false }

/-! ## setup_optimizations: attention backends and gradient checkpointing -/

/-- The seven parameters of `BasicTransformerBlock.forward` that the
checkpointing wrapper receives and forwards, bundled. -/
structure BasicTransformerBlockArgs where
  hidden_states : ℚ
  attention_mask : Option ℚ
  encoder_hidden_states : Option ℚ
  encoder_attention_mask : Option ℚ
  timestep : Option ℤ
  cross_attention_kwargs : Option ℚ
  class_labels : Option ℤ

/-- A `BasicTransformerBlock` submodule: only its (replaceable) `forward`. -/
structure BasicTransformerBlock where
  forward : BasicTransformerBlockArgs → ℚ

/-- The type of `torch.utils.checkpoint.checkpoint` restricted to a
transformer-block forward: an uninterpreted higher-order framework call. -/
def CheckpointFn : Type :=
  (BasicTransformerBlockArgs → ℚ) → BasicTransformerBlockArgs → ℚ

/-- `__create_basic_transformer_block_forward`, lines 21-45 of the source:
captures the original forward and returns a closure that invokes it with the
same seven arguments under `torch.utils.checkpoint.checkpoint`. -/
def create_basic_transformer_block_forward (checkpoint : CheckpointFn)
    (orig_module : BasicTransformerBlock) : BasicTransformerBlockArgs → ℚ :=
  let orig_forward := orig_module.forward
  fun a => checkpoint orig_forward a

/-- `__enable_checkpointing_for_transformer_blocks`, lines 47-50: replaces the
forward of every `BasicTransformerBlock` submodule. -/
def enable_checkpointing_for_transformer_blocks (checkpoint : CheckpointFn)
    (blocks : List BasicTransformerBlock) : List BasicTransformerBlock :=
  blocks.map (fun m => { forward := create_basic_transformer_block_forward checkpoint m })

/-- The three attention processor classes the source can install on the UNet. -/
inductive AttnProcessorKind where
  | AttnProcessor
  | XFormersAttnProcessor
  | AttnProcessor2_0
  deriving DecidableEq, Repr

/-- The UNet state `setup_optimizations` manipulates: its attention processor,
its gradient-checkpointing flag, and its `BasicTransformerBlock` submodules. -/
structure UNetState where
  attn_processor : AttnProcessorKind
  gradient_checkpointing : Bool
  transformer_blocks : List BasicTransformerBlock

/-- The VAE state: whether xformers memory-efficient attention is enabled. -/
structure VAEState where
  xformers_memory_efficient_attention : Bool
  deriving DecidableEq, Repr

/-- A text encoder's state: its gradient-checkpointing flag. -/
structure TextEncoderState where
  gradient_checkpointing : Bool
  deriving DecidableEq, Repr

/-- The submodules of `StableDiffusionXLModel` touched by `setup_optimizations`. -/
structure SDXLModules where
  unet : UNetState
  vae : VAEState
  text_encoder_1 : TextEncoderState
  text_encoder_2 : TextEncoderState

/-- Which of the two framework calls inside the `try` blocks raise. A raising
call is atomic: it leaves its component unchanged. -/
structure XformersFaults where
  unet_set_attn_processor_raises : Bool
  vae_enable_raises : Bool
  deriving DecidableEq, Repr

/-- The warning printed by both `except` handlers (exception text elided). -/
def memory_efficient_attention_warning : String :=
  "Could not enable memory efficient attention. Make sure xformers is installed correctly and a GPU is available"

/-- `setup_optimizations`, lines 52-84 of the source. Returns the mutated
modules and the list of printed warnings. The `try`/`except` blocks around
the xformers enablement become explicit tests of the fault flags; an
exception skips the rest of its `try` block, appends the warning, and
execution continues. -/
def setup_optimizations (checkpoint : CheckpointFn) (is_xformers_available : Bool)
    (faults : XformersFaults) (args : TrainArgs) (model : SDXLModules) :
    SDXLModules × List String :=
  let attn_step : SDXLModules × List String :=
    if args.attention_mechanism = AttentionMechanism.DEFAULT then
      ({ model with unet := { model.unet with attn_processor := .AttnProcessor } }, [])
    else if args.attention_mechanism = AttentionMechanism.XFORMERS ∧
        is_xformers_available = true then
      if faults.unet_set_attn_processor_raises then
        (model, [memory_efficient_attention_warning])
      else
        let model1 := { model with
          unet := { model.unet with attn_processor := .XFormersAttnProcessor } }
        if faults.vae_enable_raises then
          (model1, [memory_efficient_attention_warning])
        else
          ({ model1 with vae := { xformers_memory_efficient_attention := true } }, [])
    else if args.attention_mechanism = AttentionMechanism.SDP then
      let model1 := { model with
        unet := { model.unet with attn_processor := .AttnProcessor2_0 } }
      if is_xformers_available then
        if faults.vae_enable_raises then
          (model1, [memory_efficient_attention_warning])
        else
          ({ model1 with vae := { xformers_memory_efficient_attention := true } }, [])
      else (model1, [])
    else (model, [])
  let model2 := attn_step.1
  ({ model2 with
      unet := { model2.unet with
        gradient_checkpointing := true,
        transformer_blocks :=
          enable_checkpointing_for_transformer_blocks checkpoint
            model2.unet.transformer_blocks },
      text_encoder_1 := { gradient_checkpointing := true },
      text_encoder_2 := { gradient_checkpointing := true } },
    attn_step.2)

/-- The configurations in which a memory-efficient-attention enablement call
actually raises inside `setup_optimizations`. -/
def attention_enable_raises (mech : AttentionMechanism) (is_xformers_available : Bool)
    (faults : XformersFaults) : Prop :=
  (mech = AttentionMechanism.XFORMERS ∧ is_xformers_available = true ∧
    (faults.unet_set_attn_processor_raises = true ∨ faults.vae_enable_raises = true)) ∨
  (mech = AttentionMechanism.SDP ∧ is_xformers_available = true ∧
    faults.vae_enable_raises = true)

/-- A concrete model in its default state: default attention processor,
xformers disabled on the VAE, all checkpointing off, no transformer blocks. -/
def modelC3 : SDXLModules :=
  { unet := { attn_processor := .AttnProcessor, gradient_checkpointing := false,
              transformer_blocks := [] },
    vae := { xformers_memory_efficient_attention := false },
    text_encoder_1 := { gradient_checkpointing := false },
    text_encoder_2 := { gradient_checkpointing := false } }

/-- Arguments selecting the XFORMERS attention mechanism. -/
def argsC3 : TrainArgs :=
  { attention_mechanism := .XFORMERS, train_text_encoder := false,
    offset_noise_weight := 0, max_noising_strength := 1,
    masked_training := false, unmasked_weight := 1,
    normalize_masked_area_loss := false, debug_mode := false, debug_dir := "",
    model_type_has_conditioning_image_input := false }

/-! ## predict: the forward training step

Randomness is modelled by a `RandomSource`: two deterministic streams
(Gaussian and integer) indexed by a generator state and a stream
position. The three `torch.randn` calls (source lines 103, 107, 113) all
pass `generator=generator`, the generator freshly created and
`manual_seed`-ed with `train_progress.global_step`: `torch.randn` of shape
`(b, c, h, w)` reads positions `0, …, b*c*h*w - 1` of the Gaussian stream
in C order, and the offset-noise `randn` of shape `(b, c, 1, 1)` reads the
following `b*c` positions. The `torch.randint` call (lines 118-123)
passes no `generator` argument: it draws from torch's ambient default
generator, whose state at the time of the call is a separate input
`global_rng` of `predict`; it reads the integer stream at that state and
reduces modulo `high`. -/

/-- The deterministic streams behind `torch.randn` / `torch.randint`:
seed → stream position → sample. -/
structure RandomSource where
  normal : ℕ → ℕ → ℚ
  integer : ℕ → ℕ → ℕ

/-- The state of a `torch.Generator`: the seed its streams are read from. -/
structure GeneratorState where
  seed : ℕ
  deriving DecidableEq, Repr

/-- `torch.Generator(device=...)`: a fresh generator carries ambient entropy. -/
def torch_Generator (entropy : ℕ) : GeneratorState := ⟨entropy⟩

/-- `Generator.manual_seed(s)`: replaces the generator state entirely. -/
def GeneratorState.manual_seed (_g : GeneratorState) (s : ℕ) : GeneratorState := ⟨s⟩

/-- Python `int(q)`: truncation toward zero. -/
def pyInt (q : ℚ) : ℤ := if 0 ≤ q then ⌊q⌋ else ⌈q⌉

/-- The `high` argument of the `torch.randint` call in `predict`, line 120:
`int(num_train_timesteps * max_noising_strength)`. -/
def randint_high (num_train_timesteps : ℕ) (max_noising_strength : ℚ) : ℤ :=
  pyInt ((num_train_timesteps : ℚ) * max_noising_strength)

/-- C-order flattened index of a 4-dimensional tensor element. -/
def flat4 {b c h w : ℕ} (i : Fin b) (j : Fin c) (k : Fin h) (l : Fin w) : ℕ :=
  ((i.val * c + j.val) * h + k.val) * w + l.val

/-- Lines 102-116 of the source: the sampled `latent_noise`. With
`offset_noise_weight > 0` it is `normal_noise + weight * offset_noise`, the
offset component broadcast from shape `(b, c, 1, 1)` over the spatial
dimensions; otherwise a plain Gaussian sample of the latent's shape. -/
def sampled_latent_noise (R : RandomSource) (g : GeneratorState) (args : TrainArgs)
    (b c h w : ℕ) : Tensor4 b c h w :=
  if 0 < args.offset_noise_weight then
    fun i j k l =>
      R.normal g.seed (flat4 i j k l) +
        args.offset_noise_weight * R.normal g.seed (b * c * h * w + (i.val * c + j.val))
  else
    fun i j k l => R.normal g.seed (flat4 i j k l)

/-- Lines 118-123 of the source: `torch.randint(low=0, high, size=(b,))`,
one integer draw per batch sample, reduced into `[0, high)`. The call
passes no `generator` argument, so `g` is the state of torch's ambient
default generator at the time of the call — not the generator seeded with
`global_step`. -/
def sampled_timestep (R : RandomSource) (g : GeneratorState) (high : ℕ) (b : ℕ) :
    Fin b → ℕ :=
  fun i => R.integer g.seed i.val % high

/-- Python `l[-2]`: the second-to-last element; `IndexError` when the list is
shorter than 2. -/
def pyIdxNeg2 {α : Type} (l : List α) : Except PyError α :=
  if hlen : 2 ≤ l.length then .ok (l.get ⟨l.length - 2, by omega⟩)
  else .error .indexError

/-- The scheduler configuration keys `predict` reads. -/
structure NoiseSchedulerConfig where
  num_train_timesteps : ℕ
  prediction_type : String

/-- The noise scheduler: its configuration plus its two uninterpreted
mathematical operations (`add_noise`, `get_velocity`) and the
`alphas_cumprod` table used by the debug branch. -/
structure NoiseScheduler (b c h w : ℕ) where
  config : NoiseSchedulerConfig
  add_noise : Tensor4 b c h w → Tensor4 b c h w → (Fin b → ℕ) → Tensor4 b c h w
  get_velocity : Tensor4 b c h w → Tensor4 b c h w → (Fin b → ℕ) → Tensor4 b c h w
  alphas_cumprod : ℕ → ℚ

/-- The output object of a CLIP text encoder call with
`output_hidden_states=True, return_dict=True`. -/
structure TextEncoderOutput (Emb : Type) where
  hidden_states : List Emb
  text_embeds : Emb

/-- `modules.util.TrainProgress`, restricted to the field `predict` reads. -/
structure TrainProgress where
  global_step : ℕ
  deriving DecidableEq, Repr

/-- The parts of `StableDiffusionXLModel` (plus the two helper methods of the
setup object, `project_latent_to_image` and the external `** 0.5`) that
`predict` consumes. The UNet, encoders, concatenation and shape inspection
are uninterpreted deterministic functions. `train_progress_global_step` is
the model's own `train_progress.global_step` field, read by the debug branch
at lines 230 and 238. -/
structure StableDiffusionXLModel (b c h w : ℕ) (Emb : Type) where
  vae_scaling_factor : ℚ
  noise_scheduler : NoiseScheduler b c h w
  text_encoder_1 : Emb → TextEncoderOutput Emb
  text_encoder_2 : Emb → TextEncoderOutput Emb
  concat_last_dim : Emb → Emb → Emb
  emb_batch_size : Emb → ℕ
  unet : Tensor4 b c h w → (Fin b → ℕ) → Emb → Emb → List (List ℚ) → Tensor4 b c h w
  project_latent_to_image : Tensor4 b c h w → Tensor4 b c h w
  pow_half : ℚ → ℚ
  train_progress_global_step : ℕ

/-- One `self.save_image(image, directory, name, step)` call, recorded. -/
structure SavedImage (b c h w : ℕ) where
  image : Tensor4 b c h w
  directory : String
  name : String
  step : ℕ

/-- Lines 129-145 of the source: the text conditioning. When
`train_text_encoder` is set, runs both encoders on the batch's token
tensors and takes `hidden_states[-2]`; otherwise reads the precomputed
hidden states (indexing `[-2]`) and pooled state from the batch. Returns
the concatenated encoder output and the pooled output. -/
def text_conditioning {b c h w : ℕ} {Emb : Type}
    (model : StableDiffusionXLModel b c h w Emb) (batch : Batch b c h w Emb)
    (args : TrainArgs) : Except PyError (Emb × Emb) :=
  if args.train_text_encoder then
    match batch.tokens_1 with
    | none => .error (.keyError "tokens_1")
    | some tokens_1 =>
    match batch.tokens_2 with
    | none => .error (.keyError "tokens_2")
    | some tokens_2 =>
    let text_encoder_1_output := model.text_encoder_1 tokens_1
    let text_encoder_2_output := model.text_encoder_2 tokens_2
    match pyIdxNeg2 text_encoder_1_output.hidden_states with
    | .error e => .error e
    | .ok e1 =>
    match pyIdxNeg2 text_encoder_2_output.hidden_states with
    | .error e => .error e
    | .ok e2 => .ok (model.concat_last_dim e1 e2, text_encoder_2_output.text_embeds)
  else
    match batch.text_encoder_1_hidden_state with
    | none => .error (.keyError "text_encoder_1_hidden_state")
    | some hs1 =>
    match batch.text_encoder_2_hidden_state with
    | none => .error (.keyError "text_encoder_2_hidden_state")
    | some hs2 =>
    match batch.text_encoder_2_pooled_state with
    | none => .error (.keyError "text_encoder_2_pooled_state")
    | some pooled =>
    match pyIdxNeg2 hs1 with
    | .error e => .error e
    | .ok e1 =>
    match pyIdxNeg2 hs2 with
    | .error e => .error e
    | .ok e2 => .ok (model.concat_last_dim e1 e2, pooled)

/-- Lines 188-239 of the source: the five debug visualization images, in
call order. Images 1-3 are keyed by the `train_progress` argument's
`global_step`; images 4 and 5 read `model.train_progress.global_step`. -/
def debug_images {b c h w : ℕ} {Emb : Type} (model : StableDiffusionXLModel b c h w Emb)
    (args : TrainArgs) (train_progress : TrainProgress)
    (scaled_latent_image latent_noise scaled_noisy_latent_image
      predicted_latent_noise : Tensor4 b c h w)
    (timestep : Fin b → ℕ) : List (SavedImage b c h w) :=
  let dir := args.debug_dir ++ "/training_batches"
  let ac := model.noise_scheduler.alphas_cumprod
  let sqrt_alpha_prod := fun i : Fin b => model.pow_half (ac (timestep i))
  let sqrt_one_minus_alpha_prod := fun i : Fin b => model.pow_half (1 - ac (timestep i))
  let scaled_predicted_latent_image : Tensor4 b c h w := fun i j k l =>
    (scaled_noisy_latent_image i j k l -
      predicted_latent_noise i j k l * sqrt_one_minus_alpha_prod i) / sqrt_alpha_prod i
  [ { image := clampT (model.project_latent_to_image latent_noise) (-1) 1,
      directory := dir, name := "1-noise", step := train_progress.global_step },
    { image := clampT (model.project_latent_to_image predicted_latent_noise) (-1) 1,
      directory := dir, name := "2-predicted_noise", step := train_progress.global_step },
    { image := clampT (model.project_latent_to_image scaled_noisy_latent_image) (-1) 1,
      directory := dir, name := "3-noisy_image", step := train_progress.global_step },
    { image := clampT (model.project_latent_to_image scaled_predicted_latent_image) (-1) 1,
      directory := dir, name := "4-predicted_image",
      step := model.train_progress_global_step },
    { image := clampT (model.project_latent_to_image scaled_latent_image) (-1) 1,
      directory := dir, name := "5-image",
      step := model.train_progress_global_step } ]

/-- `BaseStableDiffusionXLSetup.predict`, lines 86-241 of the source.
Returns the `model_output_data` dict and the list of debug images written,
or the first uncaught Python error. `generator_entropy` is the ambient
nondeterminism a fresh `torch.Generator` would carry before `manual_seed`
overwrites it; `global_rng` is the state of torch's ambient default
generator, which the `torch.randint` call at lines 118-123 draws from
because it passes no `generator` argument. -/
def predict {b c h w : ℕ} {Emb : Type} (R : RandomSource)
    (model : StableDiffusionXLModel b c h w Emb) (batch : Batch b c h w Emb)
    (args : TrainArgs) (train_progress : TrainProgress) (generator_entropy : ℕ)
    (global_rng : GeneratorState) :
    Except PyError (ModelOutputData b c h w × List (SavedImage b c h w)) :=
  match batch.latent_image with
  | none => .error (.keyError "latent_image")
  | some latent_image =>
  let scaled_latent_image : Tensor4 b c h w :=
    fun i j k l => latent_image i j k l * model.vae_scaling_factor
  let generator := (torch_Generator generator_entropy).manual_seed train_progress.global_step
  let latent_noise := sampled_latent_noise R generator args b c h w
  let high := (randint_high model.noise_scheduler.config.num_train_timesteps
    args.max_noising_strength).toNat
  if high = 0 then .error (.runtimeError "randint: high must be positive") else
  let timestep := sampled_timestep R global_rng high b
  let scaled_noisy_latent_image :=
    model.noise_scheduler.add_noise scaled_latent_image latent_noise timestep
  match text_conditioning model batch args with
  | .error e => .error e
  | .ok (text_encoder_output, pooled_text_encoder_2_output) =>
  let add_time_ids : List (List ℚ) :=
    List.replicate (model.emb_batch_size pooled_text_encoder_2_output)
      [1024, 1024, 0, 0, 1024, 1024]
  let latent_input := scaled_noisy_latent_image
  let predicted_latent_noise :=
    model.unet latent_input timestep text_encoder_output
      pooled_text_encoder_2_output add_time_ids
  let model_output_data : ModelOutputData b c h w :=
    if model.noise_scheduler.config.prediction_type = "epsilon" then
      ⟨some predicted_latent_noise, some latent_noise⟩
    else if model.noise_scheduler.config.prediction_type = "v_prediction" then
      ⟨some predicted_latent_noise,
        some (model.noise_scheduler.get_velocity scaled_latent_image latent_noise timestep)⟩
    else ⟨none, none⟩
  let images :=
    if args.debug_mode then
      debug_images model args train_progress scaled_latent_image latent_noise
        scaled_noisy_latent_image predicted_latent_noise timestep
    else []
  .ok (model_output_data, images)

/-! ## Concrete fixtures for the predict claims -/

/-- A random source producing zeros, enough for concrete witnesses. -/
def R0 : RandomSource := { normal := fun _ _ => 0, integer := fun _ _ => 0 }

/-- A scheduler with 10 train timesteps and epsilon prediction; its two
mathematical operations are concrete stand-ins. -/
def schedEps : NoiseScheduler 1 1 1 1 :=
  { config := { num_train_timesteps := 10, prediction_type := "epsilon" },
    add_noise := fun s _ _ => s,
    get_velocity := fun s _ _ => s,
    alphas_cumprod := fun _ => 1 }

/-- A concrete 1×1×1×1 SDXL model with epsilon prediction; its own stored
`train_progress.global_step` is 1, deliberately distinct from the
`train_progress` argument (0) used by the fixtures. -/
def modelEps : StableDiffusionXLModel 1 1 1 1 Unit :=
  { vae_scaling_factor := 1,
    noise_scheduler := schedEps,
    text_encoder_1 := fun _ => { hidden_states := [(), ()], text_embeds := () },
    text_encoder_2 := fun _ => { hidden_states := [(), ()], text_embeds := () },
    concat_last_dim := fun _ _ => (),
    emb_batch_size := fun _ => 1,
    unet := fun _ _ _ _ _ => t4const 1 1 1 1 0,
    project_latent_to_image := fun t => t,
    pow_half := fun q => q,
    train_progress_global_step := 1 }

/-- The same model with an unrecognized scheduler prediction type. -/
def modelSample : StableDiffusionXLModel 1 1 1 1 Unit :=
  { modelEps with noise_scheduler :=
      { schedEps with
        config := { num_train_timesteps := 10, prediction_type := "sample" } } }

/-- A random source whose integer stream reveals the generator state it is
read from: every draw returns the state's seed. -/
def Rseed : RandomSource := { normal := fun _ _ => 0, integer := fun seed _ => seed }

/-- A model whose scheduler and UNet expose the sampled timestep in the
predicted tensor: `add_noise` embeds the per-sample timestep and the UNet
is the identity on its sample input. -/
def modelT : StableDiffusionXLModel 1 1 1 1 Unit :=
  { modelEps with
    noise_scheduler :=
      { schedEps with add_noise := fun _ _ ts => fun i _ _ _ => ((ts i : ℕ) : ℚ) },
    unet := fun sample _ _ _ _ => sample }

/-- A batch holding the latent image and precomputed text-encoder state. -/
def batchP : Batch 1 1 1 1 Unit :=
  { latent_image := some (t4const 1 1 1 1 0), latent_mask := none,
    tokens_1 := none, tokens_2 := none,
    text_encoder_1_hidden_state := some [(), ()],
    text_encoder_2_hidden_state := some [(), ()],
    text_encoder_2_pooled_state := some () }

/-- Arguments for the predict fixtures, debug mode off. -/
def argsP : TrainArgs :=
  { attention_mechanism := .DEFAULT, train_text_encoder := false,
    offset_noise_weight := 0, max_noising_strength := 1,
    masked_training := false, unmasked_weight := 1,
    normalize_masked_area_loss := false, debug_mode := false, debug_dir := "",
    model_type_has_conditioning_image_input := false }

/-- The same arguments with debug mode enabled. -/
def argsDbg : TrainArgs := { argsP with debug_mode := true, debug_dir := "debug" }

/-! # Theorems for the claims -/

/-! ## Claim C1 -/

/-- Claim C1, counterexample: with `masked_training` disabled but
`normalize_masked_area_loss` enabled, `calculate_loss` is not the batch mean
of the per-sample mean-squared errors: on a one-element batch with
`predicted = 2`, `target = 0`, `latent_mask = 1/2`, `unmasked_weight = 1/2`,
the code returns `8` (the per-sample MSE `4` divided by the clamped mask
mean `1/2`) while the claim's formula gives `4`. -/
theorem claim_C1_counterexample :
    calculate_loss mloss0 batchC1 dataC1 argsC1 = Except.ok 8 ∧
    spec_batch_mean_mse pC1 tC1 = 4 ∧
    calculate_loss mloss0 batchC1 dataC1 argsC1 ≠
      Except.ok (spec_batch_mean_mse pC1 tC1) := by
  have h1 : calculate_loss mloss0 batchC1 dataC1 argsC1 = Except.ok 8 := by
    simp [calculate_loss, batchC1, dataC1, argsC1, pC1, tC1, mean123, meanAll1,
      mse_loss_none, clampT, clampQ, t4const]
    norm_num
  have h2 : spec_batch_mean_mse pC1 tC1 = 4 := by
    simp [spec_batch_mean_mse, pC1, tC1, t4const]
    norm_num
  refine ⟨h1, h2, ?_⟩
  rw [h1, h2]
  intro h
  have := Except.ok.inj h
  norm_num at this

/-- Claim C1, amended: `calculate_loss` returns the batch mean of per-sample
losses. With `masked_training` enabled and no conditioning-image input, the
per-element squared errors are combined with the batch's `latent_mask` by
`loss_util.masked_loss` (using `unmasked_weight` and
`normalize_masked_area_loss`) before the per-sample reduction. Otherwise the
per-sample loss is the mean-squared error reduced over channel and spatial
dimensions — except that when `normalize_masked_area_loss` is enabled the
per-sample MSE is additionally divided by the per-sample mean of the latent
mask clamped to `[unmasked_weight, 1]` before the batch mean. -/
theorem claim_C1 {b c h w : ℕ} {Emb : Type} (masked_loss : MaskedLossFn b c h w)
    (batch : Batch b c h w Emb) (data : ModelOutputData b c h w) (args : TrainArgs)
    (p t : Tensor4 b c h w) (hp : data.predicted = some p) (ht : data.target = some t) :
    (args.masked_training = true → args.model_type_has_conditioning_image_input = false →
      ∀ m, batch.latent_mask = some m →
        calculate_loss masked_loss batch data args =
          Except.ok (meanAll1 (mean123 (masked_loss mse_loss_none p t m
            args.unmasked_weight args.normalize_masked_area_loss)))) ∧
    ((args.masked_training = false ∨ args.model_type_has_conditioning_image_input = true) →
      args.normalize_masked_area_loss = false →
        calculate_loss masked_loss batch data args =
          Except.ok (spec_batch_mean_mse p t)) ∧
    ((args.masked_training = false ∨ args.model_type_has_conditioning_image_input = true) →
      args.normalize_masked_area_loss = true →
      ∀ m, batch.latent_mask = some m →
        calculate_loss masked_loss batch data args =
          Except.ok (meanAll1 (fun i =>
            mean123 (mse_loss_none p t) i /
              mean123 (clampT m args.unmasked_weight 1) i))) := by
  have hspec : spec_batch_mean_mse p t = meanAll1 (mean123 (mse_loss_none p t)) := rfl
  refine ⟨?_, ?_, ?_⟩
  · intro h1 h2 m hm
    simp [calculate_loss, hp, ht, h1, h2, hm]
  · intro hcase hn
    rw [hspec]
    rcases hcase with h1 | h1 <;>
      simp [calculate_loss, hp, ht, h1, hn]
  · intro hcase hn m hm
    rcases hcase with h1 | h1 <;>
      simp [calculate_loss, hp, ht, h1, hn, hm]

/-- Claim C1, witness: the amended theorem applied to the concrete fixtures,
mask-area normalization enabled with masked training off. -/
theorem claim_C1_witness :
    dataC1.predicted = some pC1 ∧ dataC1.target = some tC1 ∧
    batchC1.latent_mask = some (t4const 1 1 1 1 (1 / 2)) ∧
    calculate_loss mloss0 batchC1 dataC1 argsC1 =
      Except.ok (meanAll1 (fun i =>
        mean123 (mse_loss_none pC1 tC1) i /
          mean123 (clampT (t4const 1 1 1 1 (1 / 2)) argsC1.unmasked_weight 1) i)) :=
  ⟨rfl, rfl, rfl,
    (claim_C1 mloss0 batchC1 dataC1 argsC1 pC1 tC1 rfl rfl).2.2
      (Or.inl rfl) rfl (t4const 1 1 1 1 (1 / 2)) rfl⟩

/-! ## Claim C7 -/

/-- Claim C7: when the batch lacks `latent_mask` and
`normalize_masked_area_loss` is enabled, `calculate_loss` raises the
`KeyError` uncaught — in every configuration of `masked_training` and of the
model type's conditioning-image input, since the unmasked branch also reads
`batch['latent_mask']` under that flag — and produces no result. -/
theorem claim_C7 {b c h w : ℕ} {Emb : Type} (masked_loss : MaskedLossFn b c h w)
    (batch : Batch b c h w Emb) (data : ModelOutputData b c h w) (args : TrainArgs)
    (p t : Tensor4 b c h w) (hp : data.predicted = some p) (ht : data.target = some t)
    (hm : batch.latent_mask = none) (hn : args.normalize_masked_area_loss = true) :
    calculate_loss masked_loss batch data args = Except.error (.keyError "latent_mask") := by
  by_cases hb : (args.masked_training && !args.model_type_has_conditioning_image_input) = true
  · simp [calculate_loss, hp, ht, hb, hm]
  · simp [calculate_loss, hp, ht, hb, hm, hn]

/-- Claim C7, witness: concrete batch with no `latent_mask`, masked training
disabled, normalization enabled — the lookup still fails. -/
theorem claim_C7_witness :
    dataC1.predicted = some pC1 ∧ dataC1.target = some tC1 ∧
    batchC7.latent_mask = none ∧ argsC1.normalize_masked_area_loss = true ∧
    calculate_loss mloss0 batchC7 dataC1 argsC1 =
      Except.error (.keyError "latent_mask") :=
  ⟨rfl, rfl, rfl, rfl, claim_C7 mloss0 batchC7 dataC1 argsC1 pC1 tC1 rfl rfl rfl rfl⟩

/-! ## Claim C8 -/

/-- Claim C8: `LpipsModelLoader.load` returns the LPIPS model in evaluation
mode (training flag cleared), on the loader's configured device, with
`requires_grad` set to `False` on every parameter; the network architecture
defaults to `"vgg"` when not specified. -/
theorem claim_C8 (device net : String) (n_params : ℕ) :
    (LpipsModelLoader.load ⟨device, net⟩ n_params).training = false ∧
    (LpipsModelLoader.load ⟨device, net⟩ n_params).device = device ∧
    (LpipsModelLoader.load ⟨device, net⟩ n_params).param_requires_grad =
      List.replicate n_params false ∧
    (LpipsModelLoader.mkDefault device).net = "vgg" ∧
    (LpipsModelLoader.load ⟨device, net⟩ n_params).net = net := by
  refine ⟨rfl, rfl, ?_, rfl, rfl⟩
  simp [LpipsModelLoader.load, lpips_LPIPS, LPIPSModel.requires_grad_set,
    LPIPSModel.eval, LPIPSModel.to]

/-! ## Claim C3 -/

/-- Claim C3, counterexample: with XFORMERS selected and available, when
`unet.set_attn_processor(XFormersAttnProcessor())` succeeds but the VAE
xformers enablement raises, the exception is caught and the warning logged,
yet the UNet's attention processor is the xformers one — training does not
proceed with the default attention backend. -/
theorem claim_C3_counterexample :
    (setup_optimizations (fun f a => f a) true ⟨false, true⟩ argsC3 modelC3).2 =
      [memory_efficient_attention_warning] ∧
    (setup_optimizations (fun f a => f a) true ⟨false, true⟩ argsC3 modelC3).1.unet.attn_processor =
      AttnProcessorKind.XFormersAttnProcessor ∧
    AttnProcessorKind.XFormersAttnProcessor ≠ AttnProcessorKind.AttnProcessor := by
  refine ⟨?_, ?_, by decide⟩ <;>
    simp [setup_optimizations, argsC3, modelC3]

/-- Claim C3, amended: if a memory-efficient-attention enablement raises
inside `setup_optimizations`, the exception is caught and the warning is
logged, the function completes normally — gradient checkpointing is still
enabled on the UNet and both text encoders — and the component whose
enablement raised keeps its prior (default) backend: the VAE keeps
memory-efficient attention disabled when its enablement raises, and the UNet
keeps its prior attention processor when `set_attn_processor` raises. But
when only the VAE enablement fails in the XFORMERS branch, the UNet keeps
the already-installed xformers processor rather than reverting to the
default. -/
theorem claim_C3 (checkpoint : CheckpointFn) (is_xformers_available : Bool)
    (faults : XformersFaults) (args : TrainArgs) (model : SDXLModules)
    (hraise : attention_enable_raises args.attention_mechanism is_xformers_available faults) :
    (setup_optimizations checkpoint is_xformers_available faults args model).2 =
      [memory_efficient_attention_warning] ∧
    (setup_optimizations checkpoint is_xformers_available faults args model).1.unet.gradient_checkpointing = true ∧
    (setup_optimizations checkpoint is_xformers_available faults args model).1.text_encoder_1.gradient_checkpointing = true ∧
    (setup_optimizations checkpoint is_xformers_available faults args model).1.text_encoder_2.gradient_checkpointing = true ∧
    ((setup_optimizations checkpoint is_xformers_available faults args model).1.vae =
      model.vae) ∧
    (args.attention_mechanism = AttentionMechanism.XFORMERS →
      faults.unet_set_attn_processor_raises = true →
      (setup_optimizations checkpoint is_xformers_available faults args model).1.unet.attn_processor =
        model.unet.attn_processor) := by
  rcases hraise with ⟨hmech, havail, hfault⟩ | ⟨hmech, havail, hfault⟩
  · rcases hfault with hf | hf
    · refine ⟨?_, ?_, ?_, ?_, ?_, ?_⟩ <;>
        simp [setup_optimizations, hmech, havail, hf]
    · by_cases hu : faults.unet_set_attn_processor_raises = true
      · refine ⟨?_, ?_, ?_, ?_, ?_, ?_⟩ <;>
          simp [setup_optimizations, hmech, havail, hf, hu]
      · refine ⟨?_, ?_, ?_, ?_, ?_, ?_⟩ <;>
          simp [setup_optimizations, hmech, havail, hf,
            Bool.not_eq_true _ ▸ hu]
  · refine ⟨?_, ?_, ?_, ?_, ?_, ?_⟩ <;>
      simp [setup_optimizations, hmech, havail, hfault]

/-- Claim C3, witness: the amended theorem at the concrete XFORMERS
configuration where only the VAE enablement raises. -/
theorem claim_C3_witness :
    attention_enable_raises argsC3.attention_mechanism true ⟨false, true⟩ ∧
    ((setup_optimizations (fun f a => f a) true ⟨false, true⟩ argsC3 modelC3).2 =
        [memory_efficient_attention_warning] ∧
      (setup_optimizations (fun f a => f a) true ⟨false, true⟩ argsC3 modelC3).1.unet.gradient_checkpointing = true ∧
      (setup_optimizations (fun f a => f a) true ⟨false, true⟩ argsC3 modelC3).1.text_encoder_1.gradient_checkpointing = true ∧
      (setup_optimizations (fun f a => f a) true ⟨false, true⟩ argsC3 modelC3).1.text_encoder_2.gradient_checkpointing = true ∧
      ((setup_optimizations (fun f a => f a) true ⟨false, true⟩ argsC3 modelC3).1.vae =
        modelC3.vae) ∧
      (argsC3.attention_mechanism = AttentionMechanism.XFORMERS →
        (false = true) →
        (setup_optimizations (fun f a => f a) true ⟨false, true⟩ argsC3 modelC3).1.unet.attn_processor =
          modelC3.unet.attn_processor)) :=
  ⟨Or.inl ⟨rfl, rfl, Or.inr rfl⟩,
    claim_C3 (fun f a => f a) true ⟨false, true⟩ argsC3 modelC3
      (Or.inl ⟨rfl, rfl, Or.inr rfl⟩)⟩

/-! ## Claim C5 -/

/-- Claim C5: for every attention-mechanism setting (and every fault and
availability configuration), after `setup_optimizations` returns, gradient
checkpointing is enabled on the UNet and on both text encoders, and the
forward of every `BasicTransformerBlock` submodule of the UNet has been
replaced by a wrapper that calls the original forward with the same seven
arguments under `torch.utils.checkpoint.checkpoint`. -/
theorem claim_C5 (checkpoint : CheckpointFn) (is_xformers_available : Bool)
    (faults : XformersFaults) (args : TrainArgs) (model : SDXLModules) :
    (setup_optimizations checkpoint is_xformers_available faults args model).1.unet.gradient_checkpointing = true ∧
    (setup_optimizations checkpoint is_xformers_available faults args model).1.text_encoder_1.gradient_checkpointing = true ∧
    (setup_optimizations checkpoint is_xformers_available faults args model).1.text_encoder_2.gradient_checkpointing = true ∧
    List.Forall₂ (fun nb ob => ∀ a, nb.forward a = checkpoint ob.forward a)
      (setup_optimizations checkpoint is_xformers_available faults args model).1.unet.transformer_blocks
      model.unet.transformer_blocks := by
  have hblocks :
      (setup_optimizations checkpoint is_xformers_available faults args model).1.unet.transformer_blocks =
        enable_checkpointing_for_transformer_blocks checkpoint
          model.unet.transformer_blocks := by
    unfold setup_optimizations
    dsimp only
    split_ifs <;> rfl
  refine ⟨rfl, rfl, rfl, ?_⟩
  rw [hblocks]
  unfold enable_checkpointing_for_transformer_blocks
  rw [List.forall₂_map_left_iff]
  refine List.forall₂_same.mpr (fun ob _ a => ?_)
  rfl

/-! ## Claim C10 -/

/-- Claim C10, counterexample: the `torch.randint` call drawing the
timesteps passes no `generator` argument, so the timesteps come from the
ambient default generator, not from the generator seeded with
`global_step`. Two calls with identical random source, model, batch, args
and `global_step` but different ambient default-generator states sample
different timesteps, and here return different `predicted` tensors
(`0` versus `1` at the origin): the claimed determinism in `global_step`
fails. -/
theorem claim_C10_counterexample :
    (predict Rseed modelT batchP argsP ⟨0⟩ 0 ⟨0⟩).toOption.map
        (fun r => r.1.predicted.map (fun p => p 0 0 0 0)) = some (some 0) ∧
    (predict Rseed modelT batchP argsP ⟨0⟩ 0 ⟨1⟩).toOption.map
        (fun r => r.1.predicted.map (fun p => p 0 0 0 0)) = some (some 1) ∧
    predict Rseed modelT batchP argsP ⟨0⟩ 0 ⟨0⟩ ≠
      predict Rseed modelT batchP argsP ⟨0⟩ 0 ⟨1⟩ := by
  have h10 : (randint_high modelT.noise_scheduler.config.num_train_timesteps
      argsP.max_noising_strength).toNat = 10 := by
    norm_num [modelT, modelEps, schedEps, argsP, randint_high, pyInt]
    decide
  have hcond : text_conditioning modelT batchP argsP = .ok ((), ()) := rfl
  have hli : batchP.latent_image = some (t4const 1 1 1 1 0) := rfl
  have hpt : modelT.noise_scheduler.config.prediction_type = "epsilon" := rfl
  have hunet : modelT.unet = fun sample _ _ _ _ => sample := rfl
  have haddn : modelT.noise_scheduler.add_noise =
      fun _ _ ts => fun i _ _ _ => ((ts i : ℕ) : ℚ) := rfl
  have hint : Rseed.integer = fun seed _ => seed := rfl
  have hdbg : argsP.debug_mode = false := rfl
  have h1 : (predict Rseed modelT batchP argsP ⟨0⟩ 0 ⟨0⟩).toOption.map
      (fun r => r.1.predicted.map (fun p => p 0 0 0 0)) = some (some 0) := by
    simp [predict, hli, hcond, h10, hpt, hunet, haddn, hint, hdbg,
      sampled_timestep, torch_Generator, GeneratorState.manual_seed, Except.toOption]
  have h2 : (predict Rseed modelT batchP argsP ⟨0⟩ 0 ⟨1⟩).toOption.map
      (fun r => r.1.predicted.map (fun p => p 0 0 0 0)) = some (some 1) := by
    simp [predict, hli, hcond, h10, hpt, hunet, haddn, hint, hdbg,
      sampled_timestep, torch_Generator, GeneratorState.manual_seed, Except.toOption]
  refine ⟨h1, h2, fun hEq => ?_⟩
  have h3 : (some (some (0 : ℚ)) : Option (Option ℚ)) = some (some 1) := by
    rw [← h1, hEq, h2]
  simp only [Option.some.injEq] at h3
  norm_num at h3

/-- Claim C10, amended: the Gaussian noise sampling in `predict` is
deterministic in the training step — the generator passed to the three
`torch.randn` calls is freshly created and seeded with
`train_progress.global_step`, so its ambient entropy is discarded and the
sampled latent noise (including any offset-noise component) depends only
on the listed inputs; and two calls with equal batch, args, model state,
`global_step` *and equal ambient default-generator state* return identical
results. The timesteps, however, are drawn by `torch.randint` from the
ambient default generator (no `generator` argument), so the returned
predicted/target tensors need not coincide when that state differs. -/
theorem claim_C10 {b c h w : ℕ} {Emb : Type} (R : RandomSource)
    (model : StableDiffusionXLModel b c h w Emb) (batch : Batch b c h w Emb)
    (args : TrainArgs) (train_progress : TrainProgress)
    (generator_entropy1 generator_entropy2 : ℕ) (global_rng : GeneratorState) :
    predict R model batch args train_progress generator_entropy1 global_rng =
      predict R model batch args train_progress generator_entropy2 global_rng ∧
    sampled_latent_noise R
        ((torch_Generator generator_entropy1).manual_seed train_progress.global_step)
        args b c h w =
      sampled_latent_noise R ⟨train_progress.global_step⟩ args b c h w :=
  ⟨rfl, rfl⟩

/-! ## Claim C4 -/

/-- Claim C4: the timesteps sampled by `predict` (via `sampled_timestep` on
`randint_high`) are, per batch sample, naturals in the half-open range
`[0, int(num_train_timesteps * max_noising_strength))`; each is strictly
below `num_train_timesteps * max_noising_strength`, and there are exactly
`b` of them. -/
theorem claim_C4 (R : RandomSource) (g : GeneratorState) (num_train_timesteps : ℕ)
    (max_noising_strength : ℚ) (b : ℕ)
    (hpos : 0 < (randint_high num_train_timesteps max_noising_strength).toNat) :
    (∀ i : Fin b,
      sampled_timestep R g (randint_high num_train_timesteps max_noising_strength).toNat b i <
        (randint_high num_train_timesteps max_noising_strength).toNat) ∧
    (∀ i : Fin b,
      ((sampled_timestep R g (randint_high num_train_timesteps max_noising_strength).toNat b i : ℕ) : ℚ) <
        (num_train_timesteps : ℚ) * max_noising_strength) ∧
    (List.ofFn
      (sampled_timestep R g (randint_high num_train_timesteps max_noising_strength).toNat b)).length = b := by
  have hlt : ∀ i : Fin b,
      sampled_timestep R g (randint_high num_train_timesteps max_noising_strength).toNat b i <
        (randint_high num_train_timesteps max_noising_strength).toNat :=
    fun _ => Nat.mod_lt _ hpos
  have hz : 0 < randint_high num_train_timesteps max_noising_strength := by omega
  have hle : (((randint_high num_train_timesteps max_noising_strength).toNat : ℚ)) ≤
      (num_train_timesteps : ℚ) * max_noising_strength := by
    by_cases hq : 0 ≤ (num_train_timesteps : ℚ) * max_noising_strength
    · have he : randint_high num_train_timesteps max_noising_strength =
          ⌊(num_train_timesteps : ℚ) * max_noising_strength⌋ := by
        simp [randint_high, pyInt, hq]
      have h2 : (((randint_high num_train_timesteps max_noising_strength).toNat : ℤ) : ℚ) ≤
          (num_train_timesteps : ℚ) * max_noising_strength := by
        rw [Int.toNat_of_nonneg hz.le, he]
        exact Int.floor_le _
      exact_mod_cast h2
    · push_neg at hq
      have he : randint_high num_train_timesteps max_noising_strength =
          ⌈(num_train_timesteps : ℚ) * max_noising_strength⌉ := by
        simp [randint_high, pyInt, not_le.mpr hq]
      have : randint_high num_train_timesteps max_noising_strength ≤ 0 := by
        rw [he]
        exact Int.ceil_le.mpr (by exact_mod_cast hq.le)
      exact absurd (lt_of_lt_of_le hz this) (lt_irrefl 0)
  refine ⟨hlt, fun i => lt_of_lt_of_le ?_ hle, List.length_ofFn _⟩
  exact_mod_cast hlt i

/-- Claim C4, witness: 10 train timesteps and maximum noising strength
`1/2` give the range `[0, 5)` on a batch of two samples. -/
theorem claim_C4_witness :
    0 < (randint_high 10 (1 / 2)).toNat ∧
    ((∀ i : Fin 2,
      sampled_timestep R0 ⟨0⟩ (randint_high 10 (1 / 2)).toNat 2 i <
        (randint_high 10 (1 / 2)).toNat) ∧
    (∀ i : Fin 2,
      ((sampled_timestep R0 ⟨0⟩ (randint_high 10 (1 / 2)).toNat 2 i : ℕ) : ℚ) <
        ((10 : ℕ) : ℚ) * (1 / 2)) ∧
    (List.ofFn (sampled_timestep R0 ⟨0⟩ (randint_high 10 (1 / 2)).toNat 2)).length = 2) := by
  have h5 : randint_high 10 (1 / 2) = 5 := by
    rw [randint_high]
    norm_num [pyInt]
  refine ⟨?_, claim_C4 R0 ⟨0⟩ 10 (1 / 2) 2 ?_⟩ <;> rw [h5] <;> decide

/-! ## Claim C2 -/

/-- Claim C2: `predict` returns the dict whose `predicted` entry is the
denoising network's output on the noisy latent (the scheduler's
`add_noise` of the scaled clean latent, the sampled noise and the sampled
timesteps), and whose `target` entry follows the scheduler's prediction
type: the sampled latent noise itself for `epsilon`, and the scheduler's
velocity of the scaled clean latent, the sampled noise and the sampled
timesteps for `v_prediction`. -/
theorem claim_C2 {b c h w : ℕ} {Emb : Type} (R : RandomSource)
    (model : StableDiffusionXLModel b c h w Emb) (batch : Batch b c h w Emb)
    (args : TrainArgs) (train_progress : TrainProgress) (generator_entropy : ℕ)
    (global_rng : GeneratorState)
    (latent_image : Tensor4 b c h w) (teo pooled : Emb)
    (hli : batch.latent_image = some latent_image)
    (hhigh : (randint_high model.noise_scheduler.config.num_train_timesteps
      args.max_noising_strength).toNat ≠ 0)
    (hcond : text_conditioning model batch args = .ok (teo, pooled)) :
    ∃ data images,
      predict R model batch args train_progress generator_entropy global_rng = .ok (data, images) ∧
      (model.noise_scheduler.config.prediction_type = "epsilon" →
        data.predicted = some (model.unet
          (model.noise_scheduler.add_noise
            (fun i j k l => latent_image i j k l * model.vae_scaling_factor)
            (sampled_latent_noise R ⟨train_progress.global_step⟩ args b c h w)
            (sampled_timestep R global_rng
              (randint_high model.noise_scheduler.config.num_train_timesteps
                args.max_noising_strength).toNat b))
          (sampled_timestep R global_rng
            (randint_high model.noise_scheduler.config.num_train_timesteps
              args.max_noising_strength).toNat b)
          teo pooled
          (List.replicate (model.emb_batch_size pooled) [1024, 1024, 0, 0, 1024, 1024])) ∧
        data.target =
          some (sampled_latent_noise R ⟨train_progress.global_step⟩ args b c h w)) ∧
      (model.noise_scheduler.config.prediction_type = "v_prediction" →
        data.predicted = some (model.unet
          (model.noise_scheduler.add_noise
            (fun i j k l => latent_image i j k l * model.vae_scaling_factor)
            (sampled_latent_noise R ⟨train_progress.global_step⟩ args b c h w)
            (sampled_timestep R global_rng
              (randint_high model.noise_scheduler.config.num_train_timesteps
                args.max_noising_strength).toNat b))
          (sampled_timestep R global_rng
            (randint_high model.noise_scheduler.config.num_train_timesteps
              args.max_noising_strength).toNat b)
          teo pooled
          (List.replicate (model.emb_batch_size pooled) [1024, 1024, 0, 0, 1024, 1024])) ∧
        data.target = some (model.noise_scheduler.get_velocity
          (fun i j k l => latent_image i j k l * model.vae_scaling_factor)
          (sampled_latent_noise R ⟨train_progress.global_step⟩ args b c h w)
          (sampled_timestep R global_rng
            (randint_high model.noise_scheduler.config.num_train_timesteps
              args.max_noising_strength).toNat b))) := by
  simp only [predict, hli, torch_Generator, GeneratorState.manual_seed]
  rw [if_neg hhigh, hcond]
  refine ⟨_, _, rfl, ?_, ?_⟩ <;> intro hpt <;> simp [hpt]

/-- Claim C2, witness: the concrete epsilon-prediction model on the concrete
batch; both hypotheses evaluate on the fixtures. -/
theorem claim_C2_witness :
    (randint_high modelEps.noise_scheduler.config.num_train_timesteps
      argsP.max_noising_strength).toNat ≠ 0 ∧
    ∃ data images,
      predict R0 modelEps batchP argsP ⟨0⟩ 0 ⟨0⟩ = .ok (data, images) ∧
      (modelEps.noise_scheduler.config.prediction_type = "epsilon" →
        data.predicted = some (modelEps.unet
          (modelEps.noise_scheduler.add_noise
            (fun i j k l => t4const 1 1 1 1 0 i j k l * modelEps.vae_scaling_factor)
            (sampled_latent_noise R0 ⟨(⟨0⟩ : TrainProgress).global_step⟩ argsP 1 1 1 1)
            (sampled_timestep R0 (⟨0⟩ : GeneratorState)
              (randint_high modelEps.noise_scheduler.config.num_train_timesteps
                argsP.max_noising_strength).toNat 1))
          (sampled_timestep R0 (⟨0⟩ : GeneratorState)
            (randint_high modelEps.noise_scheduler.config.num_train_timesteps
              argsP.max_noising_strength).toNat 1)
          () ()
          (List.replicate (modelEps.emb_batch_size ()) [1024, 1024, 0, 0, 1024, 1024])) ∧
        data.target = some (sampled_latent_noise R0 ⟨(⟨0⟩ : TrainProgress).global_step⟩
          argsP 1 1 1 1)) ∧
      (modelEps.noise_scheduler.config.prediction_type = "v_prediction" →
        data.predicted = some (modelEps.unet
          (modelEps.noise_scheduler.add_noise
            (fun i j k l => t4const 1 1 1 1 0 i j k l * modelEps.vae_scaling_factor)
            (sampled_latent_noise R0 ⟨(⟨0⟩ : TrainProgress).global_step⟩ argsP 1 1 1 1)
            (sampled_timestep R0 (⟨0⟩ : GeneratorState)
              (randint_high modelEps.noise_scheduler.config.num_train_timesteps
                argsP.max_noising_strength).toNat 1))
          (sampled_timestep R0 (⟨0⟩ : GeneratorState)
            (randint_high modelEps.noise_scheduler.config.num_train_timesteps
              argsP.max_noising_strength).toNat 1)
          () ()
          (List.replicate (modelEps.emb_batch_size ()) [1024, 1024, 0, 0, 1024, 1024])) ∧
        data.target = some (modelEps.noise_scheduler.get_velocity
          (fun i j k l => t4const 1 1 1 1 0 i j k l * modelEps.vae_scaling_factor)
          (sampled_latent_noise R0 ⟨(⟨0⟩ : TrainProgress).global_step⟩ argsP 1 1 1 1)
          (sampled_timestep R0 (⟨0⟩ : GeneratorState)
            (randint_high modelEps.noise_scheduler.config.num_train_timesteps
              argsP.max_noising_strength).toNat 1))) := by
  have hhigh : (randint_high modelEps.noise_scheduler.config.num_train_timesteps
      argsP.max_noising_strength).toNat ≠ 0 := by
    norm_num [modelEps, schedEps, argsP, randint_high, pyInt]
  exact ⟨hhigh,
    claim_C2 R0 modelEps batchP argsP ⟨0⟩ 0 ⟨0⟩ (t4const 1 1 1 1 0) () () rfl hhigh rfl⟩

/-! ## Claim C9 -/

/-- Claim C9: with a scheduler prediction type that is neither `epsilon` nor
`v_prediction`, `predict` silently returns the empty dict — both entries
absent — without raising; the failure surfaces only when `calculate_loss`
looks up `data['predicted']`, which raises `KeyError` for every masked-loss
function and argument configuration. -/
theorem claim_C9 {b c h w : ℕ} {Emb : Type} (R : RandomSource)
    (model : StableDiffusionXLModel b c h w Emb) (batch : Batch b c h w Emb)
    (args : TrainArgs) (train_progress : TrainProgress) (generator_entropy : ℕ)
    (global_rng : GeneratorState)
    (latent_image : Tensor4 b c h w) (teo pooled : Emb)
    (hli : batch.latent_image = some latent_image)
    (hhigh : (randint_high model.noise_scheduler.config.num_train_timesteps
      args.max_noising_strength).toNat ≠ 0)
    (hcond : text_conditioning model batch args = .ok (teo, pooled))
    (hpt1 : model.noise_scheduler.config.prediction_type ≠ "epsilon")
    (hpt2 : model.noise_scheduler.config.prediction_type ≠ "v_prediction") :
    (∃ images, predict R model batch args train_progress generator_entropy global_rng =
      .ok ({ predicted := none, target := none }, images)) ∧
    (∀ (masked_loss : MaskedLossFn b c h w) (largs : TrainArgs),
      calculate_loss masked_loss batch { predicted := none, target := none } largs =
        Except.error (.keyError "predicted")) := by
  constructor
  · simp only [predict, hli, torch_Generator, GeneratorState.manual_seed]
    rw [if_neg hhigh, hcond]
    simp only [hpt1, hpt2]
    exact ⟨_, rfl⟩
  · intro masked_loss largs
    rfl

/-- Claim C9, witness: a model whose prediction type is `"sample"` on the
concrete batch; `predict` yields the empty dict and `calculate_loss`
fails on the missing `predicted` key. -/
theorem claim_C9_witness :
    modelSample.noise_scheduler.config.prediction_type ≠ "epsilon" ∧
    modelSample.noise_scheduler.config.prediction_type ≠ "v_prediction" ∧
    ((∃ images, predict R0 modelSample batchP argsP ⟨0⟩ 0 ⟨0⟩ =
      .ok ({ predicted := none, target := none }, images)) ∧
    (∀ (masked_loss : MaskedLossFn 1 1 1 1) (largs : TrainArgs),
      calculate_loss masked_loss batchP { predicted := none, target := none } largs =
        Except.error (.keyError "predicted"))) := by
  have hhigh : (randint_high modelSample.noise_scheduler.config.num_train_timesteps
      argsP.max_noising_strength).toNat ≠ 0 := by
    norm_num [modelSample, modelEps, schedEps, argsP, randint_high, pyInt]
  have hpt1 : modelSample.noise_scheduler.config.prediction_type ≠ "epsilon" := by decide
  have hpt2 : modelSample.noise_scheduler.config.prediction_type ≠ "v_prediction" := by
    decide
  exact ⟨hpt1, hpt2,
    claim_C9 R0 modelSample batchP argsP ⟨0⟩ 0 ⟨0⟩ (t4const 1 1 1 1 0) () ()
      rfl hhigh rfl hpt1 hpt2⟩

/-! ## Claim C6 -/

/-- Claim C6, counterexample: on the concrete fixtures, the `predict`
argument `train_progress.global_step` is `0` while the model's stored
`train_progress.global_step` is `1`; debug mode writes five images whose
step keys are `[0, 0, 0, 1, 1]` — not all equal to the `train_progress`
argument's step as the claim asserts, because images 4 and 5 read
`model.train_progress.global_step`. -/
theorem claim_C6_counterexample :
    (predict R0 modelEps batchP argsDbg ⟨0⟩ 0 ⟨0⟩).toOption.map
        (fun r => r.2.map (fun s => s.step)) = some [0, 0, 0, 1, 1] ∧
    [0, 0, 0, 1, 1] ≠ List.replicate 5 (0 : ℕ) := by
  constructor
  · have hhigh : (randint_high modelEps.noise_scheduler.config.num_train_timesteps
        argsDbg.max_noising_strength).toNat ≠ 0 := by
      norm_num [modelEps, schedEps, argsDbg, argsP, randint_high, pyInt]
    have hcond : text_conditioning modelEps batchP argsDbg = .ok ((), ()) := rfl
    have hli : batchP.latent_image = some (t4const 1 1 1 1 0) := rfl
    have hstep : modelEps.train_progress_global_step = 1 := rfl
    have hdbg : argsDbg.debug_mode = true := rfl
    simp [predict, hli, hcond, hhigh, hstep, hdbg, torch_Generator,
      GeneratorState.manual_seed, debug_images, Except.toOption]
  · decide

/-- Claim C6, amended: with debug mode enabled, `predict` writes exactly five
visualization images into `debug_dir + "/training_batches"` with the fixed
ordinal/name pairs `1-noise`, `2-predicted_noise`, `3-noisy_image`,
`4-predicted_image`, `5-image`; the first three are keyed by the
`train_progress` argument's `global_step`, while `4-predicted_image` and
`5-image` are keyed by the model's own `train_progress.global_step`. -/
theorem claim_C6 {b c h w : ℕ} {Emb : Type} (R : RandomSource)
    (model : StableDiffusionXLModel b c h w Emb) (batch : Batch b c h w Emb)
    (args : TrainArgs) (train_progress : TrainProgress) (generator_entropy : ℕ)
    (global_rng : GeneratorState)
    (latent_image : Tensor4 b c h w) (teo pooled : Emb)
    (hli : batch.latent_image = some latent_image)
    (hhigh : (randint_high model.noise_scheduler.config.num_train_timesteps
      args.max_noising_strength).toNat ≠ 0)
    (hcond : text_conditioning model batch args = .ok (teo, pooled))
    (hdbg : args.debug_mode = true) :
    (predict R model batch args train_progress generator_entropy global_rng).toOption.map
        (fun r => r.2.map (fun s => (s.directory, s.name, s.step))) =
      some [(args.debug_dir ++ "/training_batches", "1-noise", train_progress.global_step),
        (args.debug_dir ++ "/training_batches", "2-predicted_noise", train_progress.global_step),
        (args.debug_dir ++ "/training_batches", "3-noisy_image", train_progress.global_step),
        (args.debug_dir ++ "/training_batches", "4-predicted_image",
          model.train_progress_global_step),
        (args.debug_dir ++ "/training_batches", "5-image",
          model.train_progress_global_step)] := by
  simp only [predict, hli, torch_Generator, GeneratorState.manual_seed]
  rw [if_neg hhigh, hcond]
  simp [hdbg, debug_images, Except.toOption]

/-- Claim C6, witness: the amended theorem on the concrete fixtures with
debug mode enabled. -/
theorem claim_C6_witness :
    argsDbg.debug_mode = true ∧
    (predict R0 modelEps batchP argsDbg ⟨0⟩ 0 ⟨0⟩).toOption.map
        (fun r => r.2.map (fun s => (s.directory, s.name, s.step))) =
      some [(argsDbg.debug_dir ++ "/training_batches", "1-noise",
          (⟨0⟩ : TrainProgress).global_step),
        (argsDbg.debug_dir ++ "/training_batches", "2-predicted_noise",
          (⟨0⟩ : TrainProgress).global_step),
        (argsDbg.debug_dir ++ "/training_batches", "3-noisy_image",
          (⟨0⟩ : TrainProgress).global_step),
        (argsDbg.debug_dir ++ "/training_batches", "4-predicted_image",
          modelEps.train_progress_global_step),
        (argsDbg.debug_dir ++ "/training_batches", "5-image",
          modelEps.train_progress_global_step)] := by
  have hhigh : (randint_high modelEps.noise_scheduler.config.num_train_timesteps
      argsDbg.max_noising_strength).toNat ≠ 0 := by
    norm_num [modelEps, schedEps, argsDbg, argsP, randint_high, pyInt]
  exact ⟨rfl,
    claim_C6 R0 modelEps batchP argsDbg ⟨0⟩ 0 ⟨0⟩ (t4const 1 1 1 1 0) () ()
      rfl hhigh rfl rfl⟩

end OneTrainer
